import Mathlib

/-!
Shallow embedding of the notification reporters of the repository:
`DiscordReporter` (src/helpers/DiscordReporter.ts) and `TelegramReporter`.
The two classes share an identical event collector (`onTestEnd`,
`extractErrorMessage`, `formatDuration`, `getPassRate`, `getStatusText`);
those are defined once.  JS numbers holding test counts and millisecond
durations are modelled as `Nat`; JS strings as `String` with lengths
counted in code points; the insertion-ordered JS `Map` as an association
list updated in place; `Date.now()` is passed in as an explicit `now`
parameter, and locale timestamps as an explicit string parameter.
-/

set_option maxRecDepth 100000

namespace Reporter

/-- Status of a single test result (`result.status` of the runner). -/
inductive TestStatus where
  | passed
  | failed
  | timedOut
  | skipped
  | interrupted
  deriving DecidableEq

/-- One entry of `result.errors`; `message` may be absent (undefined). -/
structure ErrorObj where
  message : Option String
  deriving DecidableEq

/-- Fields of a runner `TestResult` consumed by the reporters. -/
structure TestResult where
  status : TestStatus
  duration : Nat
  retry : Nat
  errors : List ErrorObj
  deriving DecidableEq

/-- Fields of a runner `TestCase` consumed by the reporters. -/
structure TestCase where
  title : String
  locationFile : String
  deriving DecidableEq

/-- The `TestStats` record of both reporter classes. -/
structure TestStats where
  total : Nat
  passed : Nat
  failed : Nat
  skipped : Nat
  flaky : Nat
  duration : Nat
  deriving DecidableEq

/-- The `FailedTest` record of both reporter classes. -/
structure FailedTest where
  title : String
  file : String
  error : String
  deriving DecidableEq

/-- Mutable state of a reporter instance, together with the two
formatting options read from the constructor options. -/
structure ReporterState where
  stats : TestStats
  failedTests : List FailedTest
  startTime : Nat
  projectName : String
  baseUrl : String
  includeFailedTests : Bool
  maxFailedTestsToShow : Nat
  deriving DecidableEq

/-- State of a freshly constructed reporter with default options
(`includeFailedTests` defaults to true, `maxFailedTestsToShow` to 5). -/
def initialState : ReporterState where
  stats := ⟨0, 0, 0, 0, 0, 0⟩
  failedTests := []
  startTime := 0
  projectName := ""
  baseUrl := ""
  includeFailedTests := true
  maxFailedTestsToShow := 5

/-- JS `s.substring(0, n)`, modelled as the first `n` code points. -/
def strTake (s : String) (n : Nat) : String := String.mk (s.data.take n)

/-- JS `s.trim()`: whitespace stripped from both ends. -/
def strTrim (s : String) : String :=
  String.mk (((s.data.dropWhile Char.isWhitespace).reverse.dropWhile
    Char.isWhitespace).reverse)

/-- Model of `file.split(/[\\/]/).pop() || file`: the last segment after
splitting on slash or backslash, falling back to the whole string when
that segment is empty (JS treats the empty string as falsy). -/
def lastPathSegment (file : String) : String :=
  let parts := file.split (fun c => c == '/' || c == '\\')
  let last := parts.getLastD ""
  if last = "" then file else last

/-- Model of `extractErrorMessage` (identical in both reporters):
empty `errors` array gives the literal "Unknown error"; otherwise the
first error's message (empty string when absent, as `message || ""`),
truncated to 150 code points with a trailing "..." when longer. -/
def extractErrorMessage (result : TestResult) : String :=
  match result.errors with
  | [] => "Unknown error"
  | error :: _ =>
    let message := error.message.getD ""
    if message.length > 150 then strTake message 150 ++ "..." else message

/-- Model of `onTestEnd` (identical in both reporters). -/
def onTestEnd (s : ReporterState) (test : TestCase) (result : TestResult) :
    ReporterState :=
  let stats0 := { s.stats with
    total := s.stats.total + 1
    duration := s.stats.duration + result.duration }
  let s1 : ReporterState :=
    match result.status with
    | .passed => { s with stats := { stats0 with passed := stats0.passed + 1 } }
    | .failed | .timedOut =>
        { s with
          stats := { stats0 with failed := stats0.failed + 1 }
          failedTests := s.failedTests ++
            [{ title := test.title
               file := lastPathSegment test.locationFile
               error := extractErrorMessage result }] }
    | .skipped => { s with stats := { stats0 with skipped := stats0.skipped + 1 } }
    | .interrupted => { s with stats := stats0 }
  if result.status = .passed ∧ result.retry > 0 then
    { s1 with stats := { s1.stats with flaky := s1.stats.flaky + 1 } }
  else s1

/-- A whole sequence of `onTestEnd` calls, in arrival order. -/
def runEvents (s : ReporterState) (events : List (TestCase × TestResult)) :
    ReporterState :=
  events.foldl (fun acc e => onTestEnd acc e.1 e.2) s

/-- Model of `formatDuration` (identical in both reporters). -/
def formatDuration (ms : Nat) : String :=
  let seconds := ms / 1000
  let minutes := seconds / 60
  let remainingSeconds := seconds % 60
  if minutes > 0 then
    toString minutes ++ "m " ++ toString remainingSeconds ++ "s"
  else
    toString seconds ++ "s"

/-- Terminal status of the whole run (`FullResult.status`); the
extra constructor models the `default` branch of the status switches. -/
inductive RunStatus where
  | passed
  | failed
  | timedout
  | interrupted
  | unknownStatus
  deriving DecidableEq

/-- Model of `getStatusText` (identical in both reporters). -/
def getStatusText : RunStatus → String
  | .passed => "PASSED"
  | .failed => "FAILED"
  | .timedout => "TIMED OUT"
  | .interrupted => "INTERRUPTED"
  | .unknownStatus => "UNKNOWN"

/-- Model of `DiscordReporter.getStatusEmoji`. -/
def getStatusEmoji : RunStatus → String
  | .passed => "✅"
  | .failed => "❌"
  | .timedout => "⏱️"
  | .interrupted => "⚠️"
  | .unknownStatus => "❓"

/-- Model of `DiscordReporter.getEmbedColor`. -/
def getEmbedColor : RunStatus → Nat
  | .passed => 0x2ecc71
  | .failed => 0xe74c3c
  | .timedout => 0xf39c12
  | .interrupted => 0x9b59b6
  | .unknownStatus => 0x95a5a6

/-- Rendering of `(num / den) * 100`-style rationals by `toFixed(1)`:
the JS double value is modelled as the exact rational `num / den`, and
`toFixed(1)` as rounding to one decimal, ties away from zero (the
ECMAScript rule "pick the larger n"; all values here are nonnegative). -/
def toFixed1 (num den : Nat) : String :=
  let scaled := (num * 10 * 2 + den) / (den * 2)
  toString (scaled / 10) ++ "." ++ toString (scaled % 10)

/-- Model of `getPassRate` (identical in both reporters); the double
expression `(passed / total) * 100` is modelled as the exact rational
`passed * 100 / total`. -/
def getPassRate (stats : TestStats) : String :=
  if stats.total = 0 then "0%"
  else toFixed1 (stats.passed * 100) stats.total ++ "%"

/-- Replacement of every occurrence of the character `c` by the string
`r`, character-wise; this is JS `text.replace(/c/g, r)` for a
single-character pattern. -/
def replaceCharL (c : Char) (r : List Char) : List Char → List Char
  | [] => []
  | a :: as => (if a = c then r else [a]) ++ replaceCharL c r as

/-- Model of `TelegramReporter.escapeHtml`: the three sequential global
replacements of the source, ampersand first. -/
def escapeHtml (text : String) : String :=
  String.mk (replaceCharL '>' "&gt;".data
    (replaceCharL '<' "&lt;".data
      (replaceCharL '&' "&amp;".data text.data)))

/-- One step of building the insertion-ordered `testsByFile` map:
`tests = map.get(file) || []; tests.push(title); map.set(file, tests)`.
An existing key keeps its position and gains the title at the end of its
list; a new key is appended at the end of the map. -/
def insertGrouped (acc : List (String × List String)) (file title : String) :
    List (String × List String) :=
  match acc with
  | [] => [(file, [title])]
  | (f, ts) :: rest =>
    if f = file then (f, ts ++ [title]) :: rest
    else (f, ts) :: insertGrouped rest file title

/-- The grouping loop over `failedTests` of both formatters. -/
def groupByFile (failedTests : List FailedTest) : List (String × List String) :=
  failedTests.foldl (fun acc t => insertGrouped acc t.file t.title) []

/-- Inner loop of the grouped-failures emission, shared shape of both
formatters: one bullet line per title while `testsShown` is below the
cap; returns the emitted text and the final `testsShown` counter. -/
def renderTitles (bullet : String → String) (cap : Nat) :
    List String → Nat → String × Nat
  | [], shown => ("", shown)
  | t :: ts, shown =>
    if shown ≥ cap then ("", shown)
    else
      let rest := renderTitles bullet cap ts (shown + 1)
      (bullet t ++ rest.1, rest.2)

/-- Outer loop of the grouped-failures emission: per group a header,
its bullet lines, and a fixed trailing piece; a group is entered only
while `testsShown` is below the cap. -/
def renderGroups (header : String → String) (trailer : String)
    (bullet : String → String) (cap : Nat) :
    List (String × List String) → Nat → String × Nat
  | [], shown => ("", shown)
  | (file, ts) :: gs, shown =>
    if shown ≥ cap then ("", shown)
    else
      let inner := renderTitles bullet cap ts shown
      let rest := renderGroups header trailer bullet cap gs inner.2
      (header file ++ inner.1 ++ trailer ++ rest.1, rest.2)

/-- Discord file header line of a failure group. -/
def discordHeader (file : String) : String := "📄 **" ++ file ++ "**\n"

/-- Discord bullet line of a failed test. -/
def discordBullet (t : String) : String := "• " ++ t ++ "\n"

/-- Telegram file header line of a failure group (HTML-escaped). -/
def telegramHeader (file : String) : String :=
  "\n📄 <b>" ++ escapeHtml file ++ "</b>\n"

/-- Telegram bullet line of a failed test (HTML-escaped). -/
def telegramBullet (t : String) : String := "• " ++ escapeHtml t ++ "\n"

/-- The "... and N more failed tests" note of the Discord formatter. -/
def discordMoreNote (remaining : Nat) : String :=
  "_... and " ++ toString remaining ++ " more failed tests_"

/-- The "... and N more failed tests" note of the Telegram formatter
(with its leading newline, as emitted by the source). -/
def telegramMoreNote (remaining : Nat) : String :=
  "\n<i>... and " ++ toString remaining ++ " more failed tests</i>"

/-- Value of `failedTestsValue` in `DiscordReporter.buildPayload`
before the 1024-character cap is applied. -/
def discordFailedTestsRaw (cap : Nat) (failedTests : List FailedTest) : String :=
  let body :=
    (renderGroups discordHeader "\n" discordBullet cap (groupByFile failedTests) 0).1
  if failedTests.length > cap then
    body ++ discordMoreNote (failedTests.length - cap)
  else body

/-- Value of `failedTestsValue` after the Discord embed field cap:
text longer than 1024 is cut to its first 1020 characters plus "...". -/
def discordFailedTestsValue (cap : Nat) (failedTests : List FailedTest) : String :=
  let v := discordFailedTestsRaw cap failedTests
  if v.length > 1024 then strTake v 1020 ++ "..." else v

/-- Failures section of the Telegram message, as appended by
`TelegramReporter.buildMessage` when there are failures to show;
note that the Telegram source applies no length cap to this text. -/
def telegramFailuresBlock (cap : Nat) (failedTests : List FailedTest) : String :=
  let body :=
    (renderGroups telegramHeader "" telegramBullet cap (groupByFile failedTests) 0).1
  "\n<b>Failed Tests:</b>\n" ++ body ++
    (if failedTests.length > cap then
      telegramMoreNote (failedTests.length - cap)
    else "")

/-- Head of the Telegram message (everything `buildMessage` appends
before the optional failures section); `now` stands for `Date.now()` at
build time and `timestamp` for the locale-rendered current time. -/
def messageHead (rep : ReporterState) (runStatus : RunStatus) (now : Nat)
    (timestamp : String) : String :=
  "<b>Test Execution: " ++ getStatusText runStatus ++ "</b>\n\n" ++
    ("<b>Project:</b> " ++ escapeHtml rep.projectName ++ "\n") ++
    ("<b>Environment:</b> " ++ escapeHtml rep.baseUrl ++ "\n") ++
    ("<b>Time:</b> " ++ escapeHtml timestamp ++ " UTC\n") ++
    ("<b>Duration:</b> " ++ formatDuration (now - rep.startTime) ++ "\n\n") ++
    ("<b>Results:</b>\n") ++
    ("Total: " ++ toString rep.stats.total ++ "\n") ++
    ("Passed: " ++ toString rep.stats.passed ++ "\n") ++
    ("Failed: " ++ toString rep.stats.failed ++ "\n") ++
    ("Skipped: " ++ toString rep.stats.skipped ++ "\n") ++
    (if rep.stats.flaky > 0 then "Flaky: " ++ toString rep.stats.flaky ++ "\n" else "") ++
    ("Pass Rate: " ++ getPassRate rep.stats ++ "\n")

/-- Model of `TelegramReporter.buildMessage`: the head, followed by the
failures section when enabled and nonempty. -/
def buildMessage (rep : ReporterState) (runStatus : RunStatus) (now : Nat)
    (timestamp : String) : String :=
  if rep.includeFailedTests ∧ rep.failedTests.length > 0 then
    messageHead rep runStatus now timestamp ++
      telegramFailuresBlock rep.maxFailedTestsToShow rep.failedTests
  else messageHead rep runStatus now timestamp

/-- One field of the Discord embed. -/
structure DiscordField where
  name : String
  value : String
  inlined : Bool
  deriving DecidableEq

/-- Value of the Results field of the Discord embed; the conditional
list entry models the `null`-then-`filter(Boolean)` of the source. -/
def resultsFieldValue (stats : TestStats) : String :=
  String.intercalate "\n"
    (["**Total:** " ++ toString stats.total,
      "**Passed:** " ++ toString stats.passed ++ " ✅",
      "**Failed:** " ++ toString stats.failed ++ " ❌",
      "**Skipped:** " ++ toString stats.skipped ++ " ⏭️"] ++
     (if stats.flaky > 0 then ["**Flaky:** " ++ toString stats.flaky ++ " 🔄"] else []) ++
     ["**Pass Rate:** " ++ getPassRate stats])

/-- The fields array built by `DiscordReporter.buildPayload`. -/
def buildFields (rep : ReporterState) (now : Nat) : List DiscordField :=
  let base : List DiscordField :=
    [⟨"📦 Project", rep.projectName, true⟩,
     ⟨"🌐 Environment", (if rep.baseUrl = "" then "N/A" else rep.baseUrl), true⟩,
     ⟨"⏱️ Duration", formatDuration (now - rep.startTime), true⟩,
     ⟨"📊 Results", resultsFieldValue rep.stats, false⟩]
  if rep.includeFailedTests ∧ rep.failedTests.length > 0 then
    base ++
      [⟨"❌ Failed Tests",
        strTrim (discordFailedTestsValue rep.maxFailedTestsToShow rep.failedTests),
        false⟩]
  else base

/-- The single embed built by `DiscordReporter.buildPayload`. -/
structure DiscordEmbed where
  title : String
  color : Nat
  fields : List DiscordField
  footerText : String
  timestamp : String
  deriving DecidableEq

/-- Model of `DiscordReporter.buildPayload` (its one embed). -/
def buildPayload (rep : ReporterState) (runStatus : RunStatus) (now : Nat)
    (timestamp : String) : DiscordEmbed where
  title := getStatusEmoji runStatus ++ " Test Execution: " ++ getStatusText runStatus
  color := getEmbedColor runStatus
  fields := buildFields rep now
  footerText := "Playwright Test Reporter"
  timestamp := timestamp

/-- Outcome of the one `fetch` call, as seen by the `try` block: either
a response with a status code and a body, or a thrown network error. -/
inductive FetchOutcome where
  | response (status : Nat) (body : String)
  | thrown (msg : String)
  deriving DecidableEq

/-- Result of a modelled `onEnd`: whether the network was called, and
the console lines logged.  Totality of the functions below into this
type models "returns normally in every case": the `try/catch` of the
source is the match on `FetchOutcome`, and no outcome escapes it. -/
structure DeliveryResult where
  networkCalled : Bool
  logs : List String
  deriving DecidableEq

/-- `DiscordReporter.isConfigured`: `Boolean(this.webhookUrl)`. -/
def discordIsConfigured (webhookUrl : String) : Bool := webhookUrl ≠ ""

/-- `TelegramReporter.isConfigured`: `Boolean(botToken && chatId)`. -/
def telegramIsConfigured (botToken chatId : String) : Bool :=
  botToken ≠ "" && chatId ≠ ""

/-- Console lines of `sendDiscordMessage` for a given fetch outcome;
`response.ok` is a status in 200..299. -/
def sendDiscordMessage (outcome : FetchOutcome) : List String :=
  match outcome with
  | .response status body =>
    if 200 ≤ status ∧ status ≤ 299 then
      ["[Discord Reporter] Notification sent successfully"]
    else
      ["[Discord Reporter] Failed to send message - Status: " ++
        toString status ++ ", Error: " ++ body]
  | .thrown msg => ["[Discord Reporter] Error sending message - " ++ msg]

/-- Console lines of `sendTelegramMessage` for a given fetch outcome. -/
def sendTelegramMessage (outcome : FetchOutcome) : List String :=
  match outcome with
  | .response status body =>
    if 200 ≤ status ∧ status ≤ 299 then
      ["[Telegram Reporter] Notification sent successfully"]
    else
      ["[Telegram Reporter] Failed to send message - " ++ body]
  | .thrown msg => ["[Telegram Reporter] Error sending message - " ++ msg]

/-- Control flow of `DiscordReporter.onEnd` around the delivery. -/
def discordOnEnd (enabled : Bool) (webhookUrl : String)
    (outcome : FetchOutcome) : DeliveryResult :=
  if !enabled then ⟨false, []⟩
  else if !(discordIsConfigured webhookUrl) then
    ⟨false, ["[Discord Reporter] Skipped - missing DISCORD_WEBHOOK_URL in .env file"]⟩
  else ⟨true, sendDiscordMessage outcome⟩

/-- Control flow of `TelegramReporter.onEnd` around the delivery. -/
def telegramOnEnd (enabled : Bool) (botToken chatId : String)
    (outcome : FetchOutcome) : DeliveryResult :=
  if !enabled then ⟨false, []⟩
  else if !(telegramIsConfigured botToken chatId) then
    ⟨false,
      ["[Telegram Reporter] Skipped - missing TELEGRAM_BOT_TOKEN or TELEGRAM_CHAT_ID in .env file"]⟩
  else ⟨true, sendTelegramMessage outcome⟩

/-- First occurrence of each string, in first-seen order, relative to a
set of already seen strings. -/
def firstSeenAux (seen : List String) : List String → List String
  | [] => []
  | f :: fs =>
    if f ∈ seen then firstSeenAux seen fs
    else f :: firstSeenAux (f :: seen) fs

/-- First occurrence of each string of a list, in first-seen order. -/
def firstSeen (fs : List String) : List String := firstSeenAux [] fs

/-- Entry of a grouped association list at a key (first match). -/
def entryOf (groups : List (String × List String)) (file : String) :
    Option (List String) :=
  (groups.find? (fun g => g.1 == file)).map (·.2)

/-- Per-character escape table named by the claim: exactly the three
characters ampersand, less-than and greater-than are replaced, every
other character is kept unchanged. -/
def escTriple (a : Char) : List Char :=
  if a = '&' then "&amp;".data
  else if a = '<' then "&lt;".data
  else if a = '>' then "&gt;".data
  else [a]

/-- Claim-side formulation of the Telegram HTML escaping: one
simultaneous character-wise pass over the input with `escTriple`. -/
def escapeHtmlSpec (s : String) : String :=
  String.mk ((s.data.map escTriple).flatten)

/-- Seven failures across two files (four in a.ts, three in b.ts), the
concrete instance named by the spec for the cap of five. -/
def c4failures : List FailedTest :=
  [⟨"t1", "a.ts", "e1"⟩, ⟨"t2", "a.ts", "e2"⟩, ⟨"t3", "a.ts", "e3"⟩,
   ⟨"t4", "a.ts", "e4"⟩, ⟨"t5", "b.ts", "e5"⟩, ⟨"t6", "b.ts", "e6"⟩,
   ⟨"t7", "b.ts", "e7"⟩]

/-- A single failure whose title alone is 1100 characters, driving the
grouped-failures text past 1024 characters. -/
def oversizedFailures : List FailedTest :=
  [⟨String.mk (List.replicate 1100 'a'), "a.ts", "e"⟩]

/-- Collector state holding `oversizedFailures`, with the default
formatting options. -/
def oversizedState : ReporterState where
  stats := ⟨1, 0, 1, 0, 0, 0⟩
  failedTests := oversizedFailures
  startTime := 0
  projectName := ""
  baseUrl := ""
  includeFailedTests := true
  maxFailedTestsToShow := 5

/-- An error message of 151 characters, one past the truncation bound. -/
def longMsg : String := String.mk (List.replicate 151 'e')

theorem onTestEnd_counts (s : ReporterState) (t : TestCase) (r : TestResult)
    (hst : r.status ≠ .interrupted)
    (h1 : s.stats.total = s.stats.passed + s.stats.failed + s.stats.skipped)
    (h2 : s.failedTests.length = s.stats.failed)
    (h3 : s.stats.flaky ≤ s.stats.passed) :
    (onTestEnd s t r).stats.total =
        (onTestEnd s t r).stats.passed + (onTestEnd s t r).stats.failed +
        (onTestEnd s t r).stats.skipped ∧
    (onTestEnd s t r).failedTests.length = (onTestEnd s t r).stats.failed ∧
    (onTestEnd s t r).stats.flaky ≤ (onTestEnd s t r).stats.passed := by
  cases hr : r.status with
  | interrupted => exact absurd hr hst
  | passed =>
    by_cases hretry : r.retry > 0 <;>
      simp [onTestEnd, hr, hretry] <;>
      exact ⟨by omega, h2, by omega⟩
  | failed =>
    simp [onTestEnd, hr]
    exact ⟨by omega, by simp [h2], by omega⟩
  | timedOut =>
    simp [onTestEnd, hr]
    exact ⟨by omega, by simp [h2], by omega⟩
  | skipped =>
    simp [onTestEnd, hr]
    exact ⟨by omega, h2, by omega⟩

theorem runEvents_counts (events : List (TestCase × TestResult)) :
    ∀ (s : ReporterState),
    (∀ e ∈ events, e.2.status ≠ TestStatus.interrupted) →
    (s.stats.total = s.stats.passed + s.stats.failed + s.stats.skipped ∧
     s.failedTests.length = s.stats.failed ∧
     s.stats.flaky ≤ s.stats.passed) →
    ((runEvents s events).stats.total =
        (runEvents s events).stats.passed + (runEvents s events).stats.failed +
        (runEvents s events).stats.skipped ∧
     (runEvents s events).failedTests.length = (runEvents s events).stats.failed ∧
     (runEvents s events).stats.flaky ≤ (runEvents s events).stats.passed) := by
  induction events with
  | nil => intro s _ h; simpa [runEvents] using h
  | cons e es ih =>
    intro s hall h
    have hstep := onTestEnd_counts s e.1 e.2 (hall e (by simp)) h.1 h.2.1 h.2.2
    have hrw : runEvents s (e :: es) = runEvents (onTestEnd s e.1 e.2) es := rfl
    rw [hrw]
    exact ih (onTestEnd s e.1 e.2) (fun x hx => hall x (by simp [hx])) hstep

/-- C1: for every sequence of results recorded through `onTestEnd` whose
statuses are drawn from passed/failed/timedOut/skipped, after every
prefix `p` of the sequence `p ++ rest` the collector state satisfies
`stats.total = stats.passed + stats.failed + stats.skipped`, the
failed-tests list length equals `stats.failed`, and
`stats.flaky ≤ stats.passed`. -/
theorem c1_collector_invariant (p rest : List (TestCase × TestResult))
    (h : ∀ e ∈ p ++ rest,
      e.2.status = TestStatus.passed ∨ e.2.status = TestStatus.failed ∨
      e.2.status = TestStatus.timedOut ∨ e.2.status = TestStatus.skipped) :
    (runEvents initialState p).stats.total =
        (runEvents initialState p).stats.passed +
        (runEvents initialState p).stats.failed +
        (runEvents initialState p).stats.skipped ∧
    (runEvents initialState p).failedTests.length =
        (runEvents initialState p).stats.failed ∧
    (runEvents initialState p).stats.flaky ≤
        (runEvents initialState p).stats.passed := by
  have hint : ∀ e ∈ p, e.2.status ≠ TestStatus.interrupted := by
    intro e he
    rcases h e (List.mem_append_left _ he) with h1 | h1 | h1 | h1 <;> simp [h1]
  exact runEvents_counts p initialState hint (by simp [initialState])

/-- Witness for C1 at a concrete three-event sequence. -/
theorem c1_witness :
    (runEvents initialState
      [(⟨"ok", "a/b.ts"⟩, ⟨.passed, 5, 0, []⟩),
       (⟨"bad", "a/b.ts"⟩, ⟨.failed, 7, 0, [⟨some "boom"⟩]⟩)]).stats.total =
        (runEvents initialState
      [(⟨"ok", "a/b.ts"⟩, ⟨.passed, 5, 0, []⟩),
       (⟨"bad", "a/b.ts"⟩, ⟨.failed, 7, 0, [⟨some "boom"⟩]⟩)]).stats.passed +
        (runEvents initialState
      [(⟨"ok", "a/b.ts"⟩, ⟨.passed, 5, 0, []⟩),
       (⟨"bad", "a/b.ts"⟩, ⟨.failed, 7, 0, [⟨some "boom"⟩]⟩)]).stats.failed +
        (runEvents initialState
      [(⟨"ok", "a/b.ts"⟩, ⟨.passed, 5, 0, []⟩),
       (⟨"bad", "a/b.ts"⟩, ⟨.failed, 7, 0, [⟨some "boom"⟩]⟩)]).stats.skipped ∧
    (runEvents initialState
      [(⟨"ok", "a/b.ts"⟩, ⟨.passed, 5, 0, []⟩),
       (⟨"bad", "a/b.ts"⟩, ⟨.failed, 7, 0, [⟨some "boom"⟩]⟩)]).failedTests.length =
        (runEvents initialState
      [(⟨"ok", "a/b.ts"⟩, ⟨.passed, 5, 0, []⟩),
       (⟨"bad", "a/b.ts"⟩, ⟨.failed, 7, 0, [⟨some "boom"⟩]⟩)]).stats.failed ∧
    (runEvents initialState
      [(⟨"ok", "a/b.ts"⟩, ⟨.passed, 5, 0, []⟩),
       (⟨"bad", "a/b.ts"⟩, ⟨.failed, 7, 0, [⟨some "boom"⟩]⟩)]).stats.flaky ≤
        (runEvents initialState
      [(⟨"ok", "a/b.ts"⟩, ⟨.passed, 5, 0, []⟩),
       (⟨"bad", "a/b.ts"⟩, ⟨.failed, 7, 0, [⟨some "boom"⟩]⟩)]).stats.passed :=
  c1_collector_invariant
    [(⟨"ok", "a/b.ts"⟩, ⟨.passed, 5, 0, []⟩),
     (⟨"bad", "a/b.ts"⟩, ⟨.failed, 7, 0, [⟨some "boom"⟩]⟩)]
    [(⟨"skip", "a/b.ts"⟩, ⟨.skipped, 0, 0, []⟩)]
    (by decide)

/-- C3 counterexample: on a failed result whose single error object has
no message, the stored error is the empty string, not the literal
"Unknown error" the claim requires. -/
theorem c3_counterexample :
    extractErrorMessage ⟨.failed, 0, 0, [⟨none⟩]⟩ = "" ∧
    extractErrorMessage ⟨.failed, 0, 0, [⟨none⟩]⟩ ≠ "Unknown error" := by
  decide

/-- C3 (amended): a result with an empty `errors` array is recorded with
the literal "Unknown error"; a result whose first error object has no
message is recorded with the empty string. -/
theorem c3_unknown_error (r : TestResult) :
    (r.errors = [] → extractErrorMessage r = "Unknown error") ∧
    (∀ e es, r.errors = e :: es → e.message = none →
      extractErrorMessage r = "") := by
  constructor
  · intro h; simp [extractErrorMessage, h]
  · intro e es h hm
    simp [extractErrorMessage, h, hm]

/-- Witness for C3 at the two concrete malformed results. -/
theorem c3_witness :
    extractErrorMessage ⟨.failed, 0, 0, []⟩ = "Unknown error" ∧
    extractErrorMessage ⟨.timedOut, 0, 0, [⟨none⟩]⟩ = "" :=
  ⟨(c3_unknown_error ⟨.failed, 0, 0, []⟩).1 rfl,
   (c3_unknown_error ⟨.timedOut, 0, 0, [⟨none⟩]⟩).2 ⟨none⟩ [] rfl rfl⟩

/-- C5: an error message longer than 150 characters is stored as its
first 150 characters followed by "..."; a message of at most 150
characters is stored unchanged. -/
theorem c5_error_truncation (r : TestResult) (e : ErrorObj)
    (es : List ErrorObj) (m : String)
    (herr : r.errors = e :: es) (hm : e.message = some m) :
    (150 < m.length → extractErrorMessage r = strTake m 150 ++ "...") ∧
    (m.length ≤ 150 → extractErrorMessage r = m) := by
  constructor
  · intro h
    simp only [extractErrorMessage, herr, hm, Option.getD_some]
    rw [if_pos h]
  · intro h
    simp only [extractErrorMessage, herr, hm, Option.getD_some]
    rw [if_neg (by omega)]

/-- Witness for C5 at a 151-character and a 4-character message. -/
theorem c5_witness :
    extractErrorMessage ⟨.failed, 0, 0, [⟨some longMsg⟩]⟩ =
      strTake longMsg 150 ++ "..." ∧
    extractErrorMessage ⟨.failed, 0, 0, [⟨some "boom"⟩]⟩ = "boom" :=
  ⟨(c5_error_truncation ⟨.failed, 0, 0, [⟨some longMsg⟩]⟩ ⟨some longMsg⟩ []
      longMsg rfl rfl).1 (by decide),
   (c5_error_truncation ⟨.failed, 0, 0, [⟨some "boom"⟩]⟩ ⟨some "boom"⟩ []
      "boom" rfl rfl).2 (by decide)⟩

/-- C7: the pass rate is "0%" when no test ran; otherwise it is the
exact rational passed/total x 100 rounded to one decimal digit (ties
up) and rendered as "a.b%"; 23 passed of 25 total renders "92.0%". -/
theorem c7_pass_rate (s : TestStats) :
    (s.total = 0 → getPassRate s = "0%") ∧
    (s.total ≠ 0 → ∃ a b : Nat, b < 10 ∧
      10 * a + b = (s.passed * 100 * 10 * 2 + s.total) / (s.total * 2) ∧
      getPassRate s = toString a ++ "." ++ toString b ++ "%") ∧
    getPassRate ⟨25, 23, 1, 1, 0, 0⟩ = "92.0%" := by
  refine ⟨fun h => by simp [getPassRate, h], fun h => ?_, by decide⟩
  refine ⟨(s.passed * 100 * 10 * 2 + s.total) / (s.total * 2) / 10,
          (s.passed * 100 * 10 * 2 + s.total) / (s.total * 2) % 10,
          Nat.mod_lt _ (by decide), by omega, ?_⟩
  simp [getPassRate, h, toFixed1]

/-- Witness for C7 at zero total and at 1 passed of 3 total. -/
theorem c7_witness :
    getPassRate ⟨0, 0, 0, 0, 0, 0⟩ = "0%" ∧
    (∃ a b : Nat, b < 10 ∧
      10 * a + b = (1 * 100 * 10 * 2 + 3) / (3 * 2) ∧
      getPassRate ⟨3, 1, 2, 0, 0, 0⟩ = toString a ++ "." ++ toString b ++ "%") :=
  ⟨(c7_pass_rate ⟨0, 0, 0, 0, 0, 0⟩).1 rfl,
   (c7_pass_rate ⟨3, 1, 2, 0, 0, 0⟩).2.1 (by decide)⟩

theorem replaceCharL_append (c : Char) (r : List Char) (l1 l2 : List Char) :
    replaceCharL c r (l1 ++ l2) = replaceCharL c r l1 ++ replaceCharL c r l2 := by
  induction l1 with
  | nil => simp [replaceCharL]
  | cons a as ih => simp [replaceCharL, ih, List.append_assoc]

theorem escape_chunk (a : Char) :
    replaceCharL '>' "&gt;".data (replaceCharL '<' "&lt;".data
      (replaceCharL '&' "&amp;".data [a])) = escTriple a := by
  by_cases h1 : a = '&'
  · subst h1; decide
  by_cases h2 : a = '<'
  · subst h2; decide
  by_cases h3 : a = '>'
  · subst h3; decide
  simp [replaceCharL, escTriple, h1, h2, h3]

theorem escapeHtml_chars (l : List Char) :
    replaceCharL '>' "&gt;".data (replaceCharL '<' "&lt;".data
      (replaceCharL '&' "&amp;".data l)) = (l.map escTriple).flatten := by
  induction l with
  | nil => simp [replaceCharL]
  | cons a as ih =>
    have hsplit : replaceCharL '&' "&amp;".data (a :: as) =
        replaceCharL '&' "&amp;".data [a] ++ replaceCharL '&' "&amp;".data as := by
      rw [← replaceCharL_append]; rfl
    rw [hsplit, replaceCharL_append, replaceCharL_append, escape_chunk, ih]
    simp

/-- C8: the Telegram HTML escaping equals the simultaneous per-character
substitution that replaces exactly ampersand, less-than and greater-than
and keeps every other character; the input given by the spec renders as
its escaped form. -/
theorem c8_escape_html (s : String) :
    escapeHtml s = escapeHtmlSpec s ∧
    escapeHtml "<b>x & y</b>" = "&lt;b&gt;x &amp; y&lt;/b&gt;" :=
  ⟨congrArg String.mk (escapeHtml_chars s.data), by decide⟩

/-- C9: with empty credentials neither reporter calls the network and
both log the skip when enabled; a non-2xx response or a thrown network
error only produces an error log line.  Every branch of the modelled
`onEnd` returns an ordinary `DeliveryResult`, which is the embedding of
"the end-of-run handler returns normally and never throws". -/
theorem c9_delivery_never_throws (enabled : Bool) (url tok chat : String)
    (o : FetchOutcome) :
    (url = "" →
      (discordOnEnd enabled url o).networkCalled = false ∧
      (enabled = true →
        (discordOnEnd enabled url o).logs =
          ["[Discord Reporter] Skipped - missing DISCORD_WEBHOOK_URL in .env file"])) ∧
    (tok = "" ∨ chat = "" →
      (telegramOnEnd enabled tok chat o).networkCalled = false ∧
      (enabled = true →
        (telegramOnEnd enabled tok chat o).logs =
          ["[Telegram Reporter] Skipped - missing TELEGRAM_BOT_TOKEN or TELEGRAM_CHAT_ID in .env file"])) ∧
    (∀ st b, ¬ (200 ≤ st ∧ st ≤ 299) →
      sendDiscordMessage (.response st b) =
        ["[Discord Reporter] Failed to send message - Status: " ++
          toString st ++ ", Error: " ++ b] ∧
      sendTelegramMessage (.response st b) =
        ["[Telegram Reporter] Failed to send message - " ++ b]) ∧
    (∀ m, sendDiscordMessage (.thrown m) =
        ["[Discord Reporter] Error sending message - " ++ m] ∧
      sendTelegramMessage (.thrown m) =
        ["[Telegram Reporter] Error sending message - " ++ m]) := by
  refine ⟨?_, ?_, ?_, ?_⟩
  · intro hurl
    subst hurl
    cases enabled <;> simp [discordOnEnd, discordIsConfigured]
  · intro hcred
    cases enabled <;>
      rcases hcred with h | h <;> subst h <;>
      simp [telegramOnEnd, telegramIsConfigured]
  · intro st b h
    rw [sendDiscordMessage, sendTelegramMessage]
    rw [if_neg h, if_neg h]
    exact ⟨rfl, rfl⟩
  · intro m
    exact ⟨rfl, rfl⟩

/-- Witness for C9: unconfigured reporters with a thrown network error. -/
theorem c9_witness :
    (discordOnEnd true "" (.thrown "connreset")).networkCalled = false ∧
    (telegramOnEnd true "" "42" (.thrown "connreset")).networkCalled = false ∧
    sendTelegramMessage (.response 500 "oops") =
      ["[Telegram Reporter] Failed to send message - oops"] := by
  have h := c9_delivery_never_throws true "" "" "42" (.thrown "connreset")
  exact ⟨(h.1 rfl).1, (h.2.1 (Or.inl rfl)).1, (h.2.2.1 500 "oops" (by omega)).2⟩

theorem renderTitles_le (bullet : String → String) (cap : Nat)
    (ts : List String) : ∀ (shown : Nat), shown ≤ cap →
    (renderTitles bullet cap ts shown).2 ≤ cap := by
  induction ts with
  | nil => intro shown h; simpa [renderTitles] using h
  | cons t ts ih =>
    intro shown h
    by_cases hs : shown ≥ cap
    · simpa [renderTitles, hs] using h
    · simpa [renderTitles, hs] using ih (shown + 1) (by omega)

theorem renderGroups_le (header : String → String) (trailer : String)
    (bullet : String → String) (cap : Nat)
    (gs : List (String × List String)) : ∀ (shown : Nat), shown ≤ cap →
    (renderGroups header trailer bullet cap gs shown).2 ≤ cap := by
  induction gs with
  | nil => intro shown h; simpa [renderGroups] using h
  | cons g gs ih =>
    intro shown h
    obtain ⟨file, ts⟩ := g
    by_cases hs : shown ≥ cap
    · simpa [renderGroups, hs] using h
    · simpa [renderGroups, hs] using
        ih (renderTitles bullet cap ts shown).2 (renderTitles_le bullet cap ts shown (by omega))

/-- C4: across all file groups at most `maxFailedTestsToShow` bullet
lines are emitted (the `testsShown` counter, incremented once per bullet
line, never exceeds the cap), and when the failure count exceeds the cap
the output carries the "... and N more failed tests" note with N the
failure count minus the cap; at cap 5 with the seven failures of
`c4failures` exactly 5 bullet lines and the "... and 2 more" note are
emitted, for the Discord and the Telegram variant alike. -/
theorem c4_cap_and_more_note (cap : Nat) (fts : List FailedTest) :
    (renderGroups discordHeader "\n" discordBullet cap (groupByFile fts) 0).2 ≤ cap ∧
    (renderGroups telegramHeader "" telegramBullet cap (groupByFile fts) 0).2 ≤ cap ∧
    (cap < fts.length →
      (∃ s, discordFailedTestsRaw cap fts = s ++ discordMoreNote (fts.length - cap)) ∧
      (∃ s, telegramFailuresBlock cap fts = s ++ telegramMoreNote (fts.length - cap))) ∧
    ((renderGroups discordHeader "\n" discordBullet 5 (groupByFile c4failures) 0).2 = 5 ∧
     (renderGroups telegramHeader "" telegramBullet 5 (groupByFile c4failures) 0).2 = 5 ∧
     discordFailedTestsRaw 5 c4failures =
       "📄 **a.ts**\n• t1\n• t2\n• t3\n• t4\n\n📄 **b.ts**\n• t5\n\n_... and 2 more failed tests_") := by
  refine ⟨renderGroups_le _ _ _ _ _ 0 (Nat.zero_le _),
          renderGroups_le _ _ _ _ _ 0 (Nat.zero_le _), fun h => ⟨?_, ?_⟩, by decide⟩
  · have hval : discordFailedTestsRaw cap fts =
        (renderGroups discordHeader "\n" discordBullet cap (groupByFile fts) 0).1 ++
          discordMoreNote (fts.length - cap) := by
      simp only [discordFailedTestsRaw, if_pos h]
    exact ⟨_, hval⟩
  · have hval : telegramFailuresBlock cap fts =
        ("\n<b>Failed Tests:</b>\n" ++
          (renderGroups telegramHeader "" telegramBullet cap (groupByFile fts) 0).1) ++
          telegramMoreNote (fts.length - cap) := by
      simp only [telegramFailuresBlock, if_pos h]
    exact ⟨_, hval⟩

/-- Witness for C4 at cap 5 and the seven concrete failures. -/
theorem c4_witness :
    (∃ s, discordFailedTestsRaw 5 c4failures =
      s ++ discordMoreNote (c4failures.length - 5)) ∧
    (∃ s, telegramFailuresBlock 5 c4failures =
      s ++ telegramMoreNote (c4failures.length - 5)) :=
  (c4_cap_and_more_note 5 c4failures).2.2.1 (by decide)

theorem strTake_length (s : String) (n : Nat) :
    (strTake s n).length = min n s.length :=
  List.length_take n s.data

theorem strTrim_length_le (s : String) : (strTrim s).length ≤ s.length := by
  show ((((s.data.dropWhile Char.isWhitespace).reverse.dropWhile
      Char.isWhitespace).reverse).length) ≤ s.data.length
  rw [List.length_reverse]
  calc ((s.data.dropWhile Char.isWhitespace).reverse.dropWhile Char.isWhitespace).length
      ≤ (s.data.dropWhile Char.isWhitespace).reverse.length :=
        (List.dropWhile_sublist (p := Char.isWhitespace)).length_le
    _ = (s.data.dropWhile Char.isWhitespace).length := List.length_reverse _
    _ ≤ s.data.length := (List.dropWhile_sublist (p := Char.isWhitespace)).length_le

theorem dropWhile_append_dots (l : List Char) :
    ∃ w, (l ++ ['.', '.', '.']).dropWhile Char.isWhitespace =
      w ++ ['.', '.', '.'] := by
  induction l with
  | nil => exact ⟨[], by decide⟩
  | cons a l ih =>
    by_cases ha : Char.isWhitespace a
    · obtain ⟨w, hw⟩ := ih
      exact ⟨w, by simp [List.dropWhile_cons, ha, hw]⟩
    · exact ⟨a :: l, by simp [List.dropWhile_cons, ha]⟩

theorem strTrim_dots (t : String) : ∃ u, strTrim (t ++ "...") = u ++ "..." := by
  obtain ⟨w, hw⟩ := dropWhile_append_dots t.data
  refine ⟨String.mk w, ?_⟩
  show String.mk (((((t ++ "...") : String).data.dropWhile
      Char.isWhitespace).reverse.dropWhile Char.isWhitespace).reverse) =
    String.mk w ++ "..."
  have hdata : ((t ++ "...") : String).data = t.data ++ ['.', '.', '.'] := rfl
  rw [hdata, hw, List.reverse_append]
  show String.mk ((('.' :: ('.' :: ('.' :: w.reverse))).dropWhile
      Char.isWhitespace).reverse) = String.mk w ++ "..."
  rw [List.dropWhile_cons, if_neg (by decide)]
  have hlist : ('.' :: ('.' :: ('.' :: w.reverse))).reverse = w ++ ['.', '.', '.'] := by
    simp [List.reverse_cons, List.reverse_reverse, List.append_assoc]
  rw [hlist]
  rfl

/-- C2 (amended): the 1024-character cap on the grouped-failures text,
with "..." appended on truncation, is enforced for the Discord embed
field only; the Telegram text block is emitted without any length cap.
Stated here for the Discord field (after the trailing `trim()`). -/
theorem c2_discord_field_cap (cap : Nat) (fts : List FailedTest) :
    (strTrim (discordFailedTestsValue cap fts)).length ≤ 1024 ∧
    (1024 < (discordFailedTestsRaw cap fts).length →
      ∃ u, strTrim (discordFailedTestsValue cap fts) = u ++ "...") := by
  constructor
  · refine le_trans (strTrim_length_le _) ?_
    by_cases h : (discordFailedTestsRaw cap fts).length > 1024
    · have hv : discordFailedTestsValue cap fts =
          strTake (discordFailedTestsRaw cap fts) 1020 ++ "..." := by
        simp only [discordFailedTestsValue, if_pos h]
      rw [hv, String.length_append, strTake_length]
      have hmin := Nat.min_le_left 1020 (discordFailedTestsRaw cap fts).length
      have hdots : ("..." : String).length = 3 := rfl
      omega
    · have hv : discordFailedTestsValue cap fts = discordFailedTestsRaw cap fts := by
        simp only [discordFailedTestsValue, if_neg h]
      rw [hv]; omega
  · intro h
    have hv : discordFailedTestsValue cap fts =
        strTake (discordFailedTestsRaw cap fts) 1020 ++ "..." := by
      simp only [discordFailedTestsValue, if_pos h]
    rw [hv]
    exact strTrim_dots _

/-- C2 counterexample: with a single 1100-character failure title, the
Telegram failures text is longer than 1024 characters, ends in a newline
rather than an ellipsis, and is emitted verbatim inside the built
Telegram message — the claimed per-platform cap does not exist in the
Telegram variant. -/
theorem c2_counterexample :
    1024 < (telegramFailuresBlock 5 oversizedFailures).length ∧
    (telegramFailuresBlock 5 oversizedFailures).data.getLastD ' ' = '\n' ∧
    (∃ p, buildMessage oversizedState .failed 0 "t" =
      p ++ telegramFailuresBlock 5 oversizedFailures) := by
  refine ⟨by decide, by decide, ⟨messageHead oversizedState .failed 0 "t", ?_⟩⟩
  have hc : oversizedState.includeFailedTests = true ∧
      oversizedState.failedTests.length > 0 := ⟨rfl, by decide⟩
  simp only [buildMessage]
  rw [if_pos hc]
  rfl

/-- Witness for C2 at the oversized concrete failure list. -/
theorem c2_witness :
    (strTrim (discordFailedTestsValue 5 oversizedFailures)).length ≤ 1024 ∧
    (∃ u, strTrim (discordFailedTestsValue 5 oversizedFailures) = u ++ "...") := by
  have h := c2_discord_field_cap 5 oversizedFailures
  exact ⟨h.1, h.2 (by decide)⟩

theorem insertGrouped_map_fst (file title : String)
    (acc : List (String × List String)) :
    (insertGrouped acc file title).map Prod.fst =
      (if file ∈ acc.map Prod.fst then acc.map Prod.fst
       else acc.map Prod.fst ++ [file]) := by
  induction acc with
  | nil => simp [insertGrouped]
  | cons g rest ih =>
    obtain ⟨f, ts⟩ := g
    by_cases hf : f = file
    · subst hf
      simp [insertGrouped]
    · by_cases hm : file ∈ rest.map Prod.fst
      · simp [insertGrouped, hf, ih, hm, List.mem_cons, Ne.symm hf]
      · simp [insertGrouped, hf, ih, hm, List.mem_cons, Ne.symm hf]

theorem firstSeenAux_congr (fs : List String) :
    ∀ (s1 s2 : List String), (∀ a, a ∈ s1 ↔ a ∈ s2) →
    firstSeenAux s1 fs = firstSeenAux s2 fs := by
  induction fs with
  | nil => intro s1 s2 _; rfl
  | cons f fs ih =>
    intro s1 s2 h
    by_cases hm : f ∈ s1
    · have hm2 : f ∈ s2 := (h f).1 hm
      simp [firstSeenAux, hm, hm2, ih s1 s2 h]
    · have hm2 : f ∉ s2 := fun hx => hm ((h f).2 hx)
      simp only [firstSeenAux, if_neg hm, if_neg hm2]
      rw [ih (f :: s1) (f :: s2) (by intro a; simp [h a])]

theorem foldl_insertGrouped_map_fst (ts : List FailedTest) :
    ∀ (acc : List (String × List String)),
    (ts.foldl (fun a t => insertGrouped a t.file t.title) acc).map Prod.fst =
      acc.map Prod.fst ++ firstSeenAux (acc.map Prod.fst) (ts.map FailedTest.file) := by
  induction ts with
  | nil => intro acc; simp [firstSeenAux]
  | cons t ts ih =>
    intro acc
    rw [List.foldl_cons, ih]
    by_cases hm : t.file ∈ acc.map Prod.fst
    · simp only [insertGrouped_map_fst, if_pos hm, List.map_cons, firstSeenAux]
    · simp only [insertGrouped_map_fst, if_neg hm, List.map_cons, firstSeenAux]
      rw [firstSeenAux_congr (ts.map FailedTest.file)
        (acc.map Prod.fst ++ [t.file]) (t.file :: acc.map Prod.fst)
        (fun a => by simp [or_comm])]
      simp [List.append_assoc]

theorem entryOf_nil (f : String) : entryOf [] f = none := rfl

theorem entryOf_cons (gf : String) (gts : List String)
    (rest : List (String × List String)) (f : String) :
    entryOf ((gf, gts) :: rest) f =
      (if gf = f then some gts else entryOf rest f) := by
  by_cases h : gf = f
  · rw [if_pos h]
    unfold entryOf
    rw [List.find?_cons_of_pos _ (by simp [h])]
    rfl
  · rw [if_neg h]
    unfold entryOf
    rw [List.find?_cons_of_neg _ (by simp [h])]

theorem entryOf_insertGrouped (file title f : String)
    (acc : List (String × List String)) :
    entryOf (insertGrouped acc file title) f =
      (if f = file then some ((entryOf acc file).getD [] ++ [title])
       else entryOf acc f) := by
  induction acc with
  | nil =>
    by_cases h : f = file
    · subst h
      simp [insertGrouped, entryOf_cons, entryOf_nil]
    · simp [insertGrouped, entryOf_cons, entryOf_nil, h, Ne.symm h]
  | cons g rest ih =>
    obtain ⟨gf, gts⟩ := g
    by_cases hg : gf = file
    · have hins : insertGrouped ((gf, gts) :: rest) file title =
          (gf, gts ++ [title]) :: rest := by
        simp only [insertGrouped, if_pos hg]
      rw [hins]
      simp only [entryOf_cons]
      rw [if_pos hg]
      by_cases h : f = file
      · have hgf : gf = f := hg.trans h.symm
        rw [if_pos hgf, if_pos h, Option.getD_some]
      · have hgf : ¬ gf = f := fun hx => h (hx.symm.trans hg)
        rw [if_neg hgf, if_neg h, if_neg hgf]
    · have hins : insertGrouped ((gf, gts) :: rest) file title =
          (gf, gts) :: insertGrouped rest file title := by
        simp only [insertGrouped, if_neg hg]
      rw [hins]
      simp only [entryOf_cons, ih]
      rw [if_neg hg]
      by_cases h : gf = f
      · have hffile : ¬ f = file := fun hx => hg (h.trans hx)
        rw [if_neg hffile, if_neg hffile]
      · rw [if_neg h, if_neg h]

theorem entryOf_foldl (ts : List FailedTest) :
    ∀ (acc : List (String × List String)) (f : String),
    entryOf (ts.foldl (fun a t => insertGrouped a t.file t.title) acc) f =
      (if entryOf acc f = none ∧
          (ts.filter (fun x => x.file == f)).map FailedTest.title = []
       then none
       else some ((entryOf acc f).getD [] ++
          (ts.filter (fun x => x.file == f)).map FailedTest.title)) := by
  induction ts with
  | nil =>
    intro acc f
    cases h : entryOf acc f <;> simp [h]
  | cons t ts ih =>
    intro acc f
    rw [List.foldl_cons, ih]
    by_cases hf : t.file = f
    · have hfil : ((t :: ts).filter (fun x => x.file == f)) =
          t :: ts.filter (fun x => x.file == f) := by
        simp [List.filter_cons, hf]
      have hent : entryOf (insertGrouped acc t.file t.title) f =
          some ((entryOf acc t.file).getD [] ++ [t.title]) := by
        rw [entryOf_insertGrouped, if_pos hf.symm]
      rw [hent, hfil, hf]
      simp [List.append_assoc]
    · have hfil : ((t :: ts).filter (fun x => x.file == f)) =
          ts.filter (fun x => x.file == f) := by
        simp [List.filter_cons, hf]
      have hent : entryOf (insertGrouped acc t.file t.title) f = entryOf acc f := by
        rw [entryOf_insertGrouped, if_neg (fun hh => hf hh.symm)]
      rw [hent, hfil]

/-- C6: the grouped map lists files in the order of their first
appearance in the recorded failure sequence, and the titles grouped
under a file are exactly the titles of that file's failures in recorded
order. -/
theorem c6_grouping_order (fts : List FailedTest) :
    (groupByFile fts).map Prod.fst = firstSeen (fts.map FailedTest.file) ∧
    ∀ f, entryOf (groupByFile fts) f =
      (if (fts.filter (fun x => x.file == f)).map FailedTest.title = []
       then none
       else some ((fts.filter (fun x => x.file == f)).map FailedTest.title)) := by
  constructor
  · have h := foldl_insertGrouped_map_fst fts []
    simpa [groupByFile, firstSeen] using h
  · intro f
    have h := entryOf_foldl fts [] f
    simpa [groupByFile, entryOf] using h

/-- C10: the Duration shown in both outgoing messages is wall-clock time
(build-time `now` minus `startTime`), every formatted output is
unchanged under arbitrary `stats.duration`, and the per-test duration
sum that `onTestEnd` maintains is exactly `stats.duration`. -/
theorem c10_wall_clock_duration (rep : ReporterState) (d' : Nat)
    (rs : RunStatus) (now : Nat) (ts : String) (t : TestCase) (r : TestResult) :
    buildMessage { rep with stats := { rep.stats with duration := d' } } rs now ts =
      buildMessage rep rs now ts ∧
    buildFields { rep with stats := { rep.stats with duration := d' } } now =
      buildFields rep now ∧
    (∃ p q, buildMessage rep rs now ts =
      p ++ ("<b>Duration:</b> " ++ formatDuration (now - rep.startTime) ++ "\n\n") ++ q) ∧
    (⟨"⏱️ Duration", formatDuration (now - rep.startTime), true⟩ : DiscordField) ∈
      buildFields rep now ∧
    (onTestEnd rep t r).stats.duration = rep.stats.duration + r.duration := by
  refine ⟨rfl, rfl, ?_, ?_, ?_⟩
  · by_cases hc : rep.includeFailedTests = true ∧ rep.failedTests.length > 0
    · exact ⟨"<b>Test Execution: " ++ getStatusText rs ++ "</b>\n\n" ++
        ("<b>Project:</b> " ++ escapeHtml rep.projectName ++ "\n") ++
        ("<b>Environment:</b> " ++ escapeHtml rep.baseUrl ++ "\n") ++
        ("<b>Time:</b> " ++ escapeHtml ts ++ " UTC\n"),
        ("<b>Results:</b>\n") ++
        ("Total: " ++ toString rep.stats.total ++ "\n") ++
        ("Passed: " ++ toString rep.stats.passed ++ "\n") ++
        ("Failed: " ++ toString rep.stats.failed ++ "\n") ++
        ("Skipped: " ++ toString rep.stats.skipped ++ "\n") ++
        (if rep.stats.flaky > 0 then "Flaky: " ++ toString rep.stats.flaky ++ "\n" else "") ++
        ("Pass Rate: " ++ getPassRate rep.stats ++ "\n") ++
        telegramFailuresBlock rep.maxFailedTestsToShow rep.failedTests,
        by
          simp only [buildMessage]
          rw [if_pos hc]
          simp only [messageHead, String.append_assoc]⟩
    · exact ⟨"<b>Test Execution: " ++ getStatusText rs ++ "</b>\n\n" ++
        ("<b>Project:</b> " ++ escapeHtml rep.projectName ++ "\n") ++
        ("<b>Environment:</b> " ++ escapeHtml rep.baseUrl ++ "\n") ++
        ("<b>Time:</b> " ++ escapeHtml ts ++ " UTC\n"),
        ("<b>Results:</b>\n") ++
        ("Total: " ++ toString rep.stats.total ++ "\n") ++
        ("Passed: " ++ toString rep.stats.passed ++ "\n") ++
        ("Failed: " ++ toString rep.stats.failed ++ "\n") ++
        ("Skipped: " ++ toString rep.stats.skipped ++ "\n") ++
        (if rep.stats.flaky > 0 then "Flaky: " ++ toString rep.stats.flaky ++ "\n" else "") ++
        ("Pass Rate: " ++ getPassRate rep.stats ++ "\n"),
        by
          simp only [buildMessage]
          rw [if_neg hc]
          simp only [messageHead, String.append_assoc]⟩
  · by_cases hc : rep.includeFailedTests = true ∧ rep.failedTests.length > 0 <;>
      simp [buildFields, hc]
  · cases hr : r.status <;> by_cases hretry : r.retry > 0 <;>
      simp [onTestEnd, hr, hretry]

end Reporter
